import Mathlib

/-!
Verification of the fast-face-detection orchestration library.

This file gives a shallow embedding of the coordinate-transform, fusion,
configuration and lifecycle logic of the repository (FaceAPI orchestrator,
FaceDetector / LandmarkDetector adapters, ImageUtils, ValidationService and
ConfigurationService) and proves the specified properties about it.

Numbers are modelled as rationals (JavaScript numbers used by this code stay
well inside exact double range for the operations involved: additions,
multiplications, divisions and Math.round).  External model inference
(TensorFlow estimateFaces calls) is modelled by oracle parameters: the
pipeline functions take the adapter-normalized detection list and a landmark
oracle as inputs, and additionally report which inference invocations they
performed, so that call-count properties can be stated.
-/

namespace FastFace

/-- Axis-aligned bounding box in pixel space, top-left origin
(src/types/types.ts, Box). -/
structure Box where
  x : ℚ
  y : ℚ
  width : ℚ
  height : ℚ
  deriving DecidableEq, Repr

/-- 3D mesh point produced by the landmark model (src/types/types.ts). -/
structure Point3D where
  x : ℚ
  y : ℚ
  z : ℚ
  deriving DecidableEq, Repr

/-- One detected face: confidence score plus bounding box. -/
structure Detection where
  score : ℚ
  box : Box
  deriving DecidableEq, Repr

/-- Detection with optional tracking id (PossiblyTrackedFace). -/
structure PossiblyTrackedFace where
  detection : Detection
  trackingID : Option ℕ
  deriving DecidableEq, Repr

/-- A set of 3D mesh points for one face (FaceLandmarkResult). -/
structure LandmarkSet where
  meshPoints : List Point3D
  deriving DecidableEq, Repr

/-- Face with attached landmarks (PossiblyTrackedFaceDetectionWithLandmarks). -/
structure FaceWithLandmarks where
  detection : Detection
  trackingID : Option ℕ
  landmarks : LandmarkSet
  deriving DecidableEq, Repr

instance : Inhabited PossiblyTrackedFace :=
  ⟨{ detection := { score := 0, box := ⟨0, 0, 0, 0⟩ }, trackingID := none }⟩

/-- Error codes of src/types/errors.ts (enum ErrorCode). -/
inductive ErrorCode where
  | unknownError
  | invalidInput
  | modelLoadFailed
  | backendInitializationFailed
  | unsupportedEnvironment
  | detectionFailed
  | noFacesDetected
  | trackingError
  | landmarkDetectionFailed
  | resourceExhausted
  | resourceDisposed
  deriving DecidableEq, Repr

/-- A thrown FaceDetectionError (or subclass): class name, code, message.
The code defaults to UNKNOWN_ERROR when the constructor receives no details
(src/types/errors.ts line 64). -/
structure FDError where
  name : String
  code : ErrorCode
  msg : String
  deriving DecidableEq, Repr

/-- Runtime environments (src/types/types.ts, Environment). -/
inductive Environment where
  | browser
  | node
  | reactNative
  deriving DecidableEq, Repr

/-- Kind of media object handed to the API; captures the instanceof checks
performed by ValidationService.validateInput and the orchestrator. -/
inductive MediaKind where
  | htmlImage
  | htmlVideo
  | htmlCanvas
  | nodeCanvas
  | other
  deriving DecidableEq, Repr

/-- Abstract media element: pixel dimensions plus its runtime kind.  Pixel
content is irrelevant to the orchestration logic being verified. -/
structure MediaElement where
  width : ℕ
  height : ℕ
  kind : MediaKind
  deriving DecidableEq, Repr

/-- True for the three HTML element kinds (instanceof HTMLImageElement /
HTMLVideoElement / HTMLCanvasElement). -/
def MediaKind.isHtml : MediaKind → Bool
  | .htmlImage => true
  | .htmlVideo => true
  | .htmlCanvas => true
  | _ => false

/-- DetectionOptions (src/types/types.ts); every field is optional.
maxFaces is an arbitrary JS number, modelled as an integer so that
out-of-range values such as 0 are representable. -/
structure DetectionOptions where
  scoreThreshold : Option ℚ := none
  maxFaces : Option ℤ := none
  enableTracking : Option Bool := none
  environment : Option Environment := none
  downscaleWidthThreshold : Option ℕ := none
  deriving DecidableEq, Repr

/-- JavaScript Math.round: floor of x + 1/2. -/
def jsRound (q : ℚ) : ℤ := ⌊q + 1 / 2⌋

namespace ConfigurationService

/-- ConfigurationService.createDefaultOptions. -/
def createDefaultOptions (environment : Environment) : DetectionOptions :=
  { environment := some environment
    scoreThreshold := some (1 / 2)
    maxFaces := some 10
    enableTracking := some true }

end ConfigurationService

/-- Object-spread merge of options ({...current, ...newOptions}): a field of
the result is the new value when the new object carries that key. -/
def mergeOptions (current newOptions : DetectionOptions) : DetectionOptions :=
  { scoreThreshold := newOptions.scoreThreshold.orElse fun _ => current.scoreThreshold
    maxFaces := newOptions.maxFaces.orElse fun _ => current.maxFaces
    enableTracking := newOptions.enableTracking.orElse fun _ => current.enableTracking
    environment := newOptions.environment.orElse fun _ => current.environment
    downscaleWidthThreshold :=
      newOptions.downscaleWidthThreshold.orElse fun _ => current.downscaleWidthThreshold }

namespace ValidationService

/-- ValidationService.validateInput (src/services/validation-service.ts
lines 11-34). -/
def validateInput (input : MediaElement) : Except FDError Unit :=
  if input.kind.isHtml || (input.kind == .nodeCanvas) then .ok ()
  else .error { name := "FaceDetectionError", code := .unknownError
                msg := "Invalid input: element must be an HTML image, video, canvas, or Node.js canvas" }

/-- ValidationService.validateDisposed (lines 39-43): throws a plain
FaceDetectionError (default code UNKNOWN_ERROR) when the flag is set. -/
def validateDisposed (isDisposed : Bool) : Except FDError Unit :=
  if isDisposed then
    .error { name := "FaceDetectionError", code := .unknownError
             msg := "API has been disposed and cannot be used again" }
  else .ok ()

/-- ValidationService.validateOptions (lines 48-56). -/
def validateOptions (options : DetectionOptions) : Except FDError Unit :=
  if options.scoreThreshold.isSome &&
      (decide (options.scoreThreshold.getD 0 < 0) || decide (1 < options.scoreThreshold.getD 0)) then
    .error { name := "FaceDetectionError", code := .unknownError
             msg := "scoreThreshold must be between 0 and 1" }
  else if options.maxFaces.isSome && decide (options.maxFaces.getD 0 < 1) then
    .error { name := "FaceDetectionError", code := .unknownError
             msg := "maxFaces must be greater than 0" }
  else .ok ()

end ValidationService

/-- Canvas dimensions (pixel content abstracted away). -/
structure Canvas where
  width : ℕ
  height : ℕ
  deriving DecidableEq, Repr

namespace ImageUtils

/-- Result of ImageUtils.downscaleImage. -/
structure DownscaleResult where
  downscaledCanvas : Canvas
  scaleFactor : ℚ
  deriving DecidableEq, Repr

/-- ImageUtils.downscaleImage (src/utils/image-utils.ts lines 127-168):
if the original width is at most the target, return a same-size copy with
scale factor 1; otherwise resample to (targetWidth, round(height * factor))
with factor = targetWidth / originalWidth. -/
def downscaleImage (original : Canvas) (targetWidth : ℕ) : DownscaleResult :=
  if original.width ≤ targetWidth then
    { downscaledCanvas := { width := original.width, height := original.height }
      scaleFactor := 1 }
  else
    let scaleFactor : ℚ := (targetWidth : ℚ) / (original.width : ℚ)
    let targetHeight : ℤ := jsRound ((original.height : ℚ) * scaleFactor)
    { downscaledCanvas := { width := targetWidth, height := targetHeight.toNat }
      scaleFactor := scaleFactor }

/-- Result of ImageUtils.cropFace: the cropped canvas dimensions and the
top-left offset actually used. -/
structure CropResult where
  offsetX : ℚ
  offsetY : ℚ
  cropWidth : ℚ
  cropHeight : ℚ
  deriving DecidableEq, Repr

/-- ImageUtils.cropFace (src/utils/image-utils.ts lines 14-46): expand the
box by the margin fraction, clamp to the canvas bounds, and report the
offset used. -/
def cropFace (canvas : Canvas) (box : Box) (margin : ℚ) : CropResult :=
  let marginX := box.width * margin
  let marginY := box.height * margin
  let offsetX := max 0 (box.x - marginX)
  let offsetY := max 0 (box.y - marginY)
  { offsetX := offsetX
    offsetY := offsetY
    cropWidth := min ((canvas.width : ℚ) - offsetX) (box.width + 2 * marginX)
    cropHeight := min ((canvas.height : ℚ) - offsetY) (box.height + 2 * marginY) }

/-- ImageUtils.elementToCanvas, restricted to the dimension bookkeeping the
orchestrator relies on. -/
def elementToCanvas (element : MediaElement) : Canvas :=
  { width := element.width, height := element.height }

end ImageUtils

namespace FaceAPI

/-- FaceAPI.upscaleBox (src/core/face-api.ts lines 405-412): divide every
coordinate by the scale factor. -/
def upscaleBox (box : Box) (scaleFactor : ℚ) : Box :=
  { x := box.x / scaleFactor
    y := box.y / scaleFactor
    width := box.width / scaleFactor
    height := box.height / scaleFactor }

/-- The per-face body of FaceAPI.upscaleFaces (lines 419-425). -/
def upscaleFace (face : PossiblyTrackedFace) (scaleFactor : ℚ) : PossiblyTrackedFace :=
  { face with detection := { face.detection with box := upscaleBox face.detection.box scaleFactor } }

/-- FaceAPI.upscaleFaces (lines 418-426). -/
def upscaleFaces (faces : List PossiblyTrackedFace) (scaleFactor : ℚ) :
    List PossiblyTrackedFace :=
  faces.map fun face => upscaleFace face scaleFactor

/-- FaceAPI.upscaleLandmarks (lines 432-442): divide x and y of every mesh
point by the scale factor; z is not scaled. -/
def upscaleLandmarks (landmarkSets : List LandmarkSet) (scaleFactor : ℚ) :
    List LandmarkSet :=
  landmarkSets.map fun landmarkSet =>
    { meshPoints := landmarkSet.meshPoints.map fun p =>
        { x := p.x / scaleFactor, y := p.y / scaleFactor, z := p.z } }

/-- The crop-offset adjustment applied inline in detectFacesWithLandmarks
(lines 241-249): add the crop offset to x and y of every mesh point; z is
unchanged. -/
def adjustLandmarksForCrop (landmarkSets : List LandmarkSet) (offsetX offsetY : ℚ) :
    List LandmarkSet :=
  landmarkSets.map fun landmarkSet =>
    { meshPoints := landmarkSet.meshPoints.map fun p =>
        { x := p.x + offsetX, y := p.y + offsetY, z := p.z } }

/-- FaceAPI.mapFacesToLandmarks (lines 337-347): the face at index i
receives the landmark set at index i, or an empty mesh-point list when the
landmark list is too short. -/
def mapFacesToLandmarks (faces : List PossiblyTrackedFace)
    (landmarkResultSets : List LandmarkSet) : List FaceWithLandmarks :=
  faces.enum.map fun p =>
    { detection := p.2.detection
      trackingID := p.2.trackingID
      landmarks := landmarkResultSets.getD p.1 { meshPoints := [] } }

/-- Bounding-box area used by the single-face selection comparator
(line 216: width * height). -/
def faceArea (face : PossiblyTrackedFace) : ℚ :=
  face.detection.box.width * face.detection.box.height

/-- Stable insertion of a face into a list already sorted by descending
area: the face goes after every strictly larger-area element and before
equal-area elements that originally came later. -/
def insertByAreaDesc (face : PossiblyTrackedFace) :
    List PossiblyTrackedFace → List PossiblyTrackedFace
  | [] => [face]
  | g :: gs =>
      if faceArea face < faceArea g then g :: insertByAreaDesc face gs
      else face :: g :: gs

/-- The stable descending-by-area sort performed at lines 213-217
([...upscaledFaces].sort((a, b) => areaB - areaA)); ECMAScript Array sort
with a comparator is specified to be stable, which determines this result
uniquely. -/
def sortByAreaDesc : List PossiblyTrackedFace → List PossiblyTrackedFace
  | [] => []
  | face :: faces => insertByAreaDesc face (sortByAreaDesc faces)

end FaceAPI

/-- A raw keypoint from the detection model; its score may be absent or of a
non-number shape (modelled as none). -/
structure RawKeypoint where
  score : Option ℚ
  deriving DecidableEq, Repr

/-- The raw bounding box of a model detection; the defensive adapter code
checks each field with typeof, so each field may be a number or not. -/
structure RawBox where
  xMin : Option ℚ
  yMin : Option ℚ
  width : Option ℚ
  height : Option ℚ
  deriving DecidableEq, Repr

/-- A raw detection as returned by the external face-detection model, with
every score source the compatibility shim probes. -/
structure RawFace where
  score : Option ℚ
  confidence : Option ℚ
  keypoints : Option (List RawKeypoint)
  probability : Option (List ℚ)
  box : Option RawBox
  trackingID : Option ℕ
  deriving DecidableEq, Repr

namespace FaceDetector

/-- typeof v === number && v > 0, on an optional numeric field. -/
def isPositiveNumber : Option ℚ → Bool
  | some s => decide (0 < s)
  | none => false

/-- face.keypoints && face.keypoints[0]?.score. -/
def keypointScore0 (face : RawFace) : Option ℚ :=
  (face.keypoints.bind List.head?).bind RawKeypoint.score

/-- (face.probability) && (face.probability)[0]. -/
def probability0 (face : RawFace) : Option ℚ :=
  face.probability.bind List.head?

/-- The positive keypoint scores collected by the average-fallback branch
(filter typeof kp.score === number && kp.score > 0). -/
def positiveKeypointScores (kps : List RawKeypoint) : List ℚ :=
  (kps.filterMap RawKeypoint.score).filter fun s => decide (0 < s)

/-- The score-extraction chain of FaceDetector.mapDetectedFaces
(src/core/face-api.ts lines 590-611): first positive source among score,
confidence, first-keypoint score and probability[0]; otherwise the average
of the positive keypoint scores; otherwise 0. -/
def computeScore (face : RawFace) : ℚ :=
  if isPositiveNumber face.score then face.score.getD 0
  else if isPositiveNumber face.confidence then face.confidence.getD 0
  else if isPositiveNumber (keypointScore0 face) then (keypointScore0 face).getD 0
  else if isPositiveNumber (probability0 face) then (probability0 face).getD 0
  else
    match face.keypoints with
    | some kps =>
        if 0 < kps.length then
          let scores := positiveKeypointScores kps
          if 0 < scores.length then scores.sum / (scores.length : ℚ) else 0
        else 0
    | none => 0

/-- The geometric validity test of the fallback branch (lines 614-619):
box present, all four fields numeric, width and height positive. -/
def hasValidRawBox (face : RawFace) : Bool :=
  match face.box with
  | some b =>
      b.xMin.isSome && b.yMin.isSome && b.width.isSome && b.height.isSome &&
        decide (0 < b.width.getD 0) && decide (0 < b.height.getD 0)
  | none => false

/-- The adapter-normalized detection record produced per raw face; box
fields are passed through unchanged (undefined stays undefined). -/
structure MappedDetection where
  score : ℚ
  boxX : Option ℚ
  boxY : Option ℚ
  boxWidth : Option ℚ
  boxHeight : Option ℚ
  trackingID : Option ℕ
  deriving DecidableEq, Repr

/-- The per-face body of FaceDetector.mapDetectedFaces (lines 577-646):
compute the score through the chain, fall back to the fixed constant 0.95
when the score is 0 but the box is geometrically valid, and copy the box. -/
def mapSingleFace (face : RawFace) : MappedDetection :=
  let score0 := computeScore face
  let score := if score0 = 0 && hasValidRawBox face then (95 : ℚ) / 100 else score0
  { score := score
    boxX := face.box.bind RawBox.xMin
    boxY := face.box.bind RawBox.yMin
    boxWidth := face.box.bind RawBox.width
    boxHeight := face.box.bind RawBox.height
    trackingID := face.trackingID }

/-- FaceDetector.mapDetectedFaces: normalization of the whole raw list. -/
def mapDetectedFaces (detectedFaces : List RawFace) : List MappedDetection :=
  detectedFaces.map mapSingleFace

/-- The TFJS model configuration built by mapConfigToTfConfig
(src/core/face-api.ts lines 472-498): scoreThreshold defaults to 0.5 and
maxFaces to 10 when unset. -/
structure TfConfig where
  scoreThreshold : ℚ
  maxFaces : ℤ
  deriving DecidableEq, Repr

/-- mapConfigToTfConfig: the options fields are passed through unchanged,
with defaults 0.5 and 10. -/
def mapConfigToTfConfig (config : DetectionOptions) : TfConfig :=
  { scoreThreshold := config.scoreThreshold.getD (1 / 2)
    maxFaces := config.maxFaces.getD 10 }

end FaceDetector

/-- State of the FaceDetector adapter: its own options copy, the
configuration of the lazily created model (none while no model is cached),
the disposed flag, and a count of resource releases performed. -/
structure FaceDetectorState where
  options : DetectionOptions
  loaded : Option FaceDetector.TfConfig
  isDisposed : Bool
  releases : ℕ
  deriving DecidableEq, Repr

/-- State of the LandmarkDetector adapter; cfgMaxFaces mirrors
this.config.maxFaces, which the orchestrator branches on. -/
structure LandmarkDetectorState where
  options : DetectionOptions
  cfgMaxFaces : ℤ
  loaded : Bool
  isDisposed : Bool
  releases : ℕ
  deriving DecidableEq, Repr

/-- State of a FaceAPI instance. -/
structure FaceAPIState where
  options : DetectionOptions
  fd : FaceDetectorState
  ld : LandmarkDetectorState
  isDisposed : Bool
  deriving DecidableEq, Repr

/-- The optionsChanged test of BaseDetector.updateOptions
(src/core/base-detector.ts lines 60-77): one of the four tracked fields is
supplied and differs from the current value. -/
def baseOptionsChanged (current newOptions : DetectionOptions) : Bool :=
  (newOptions.scoreThreshold.isSome && !(current.scoreThreshold == newOptions.scoreThreshold)) ||
  (newOptions.maxFaces.isSome && !(current.maxFaces == newOptions.maxFaces)) ||
  (newOptions.enableTracking.isSome && !(current.enableTracking == newOptions.enableTracking)) ||
  (newOptions.environment.isSome && !(current.environment == newOptions.environment))

namespace FaceDetectorState

/-- BaseDetector.updateOptions specialized to FaceDetector: on a relevant
change, merge the options and invalidate the cached model
(FaceDetector.onOptionsUpdated, face-api.ts lines 733-739). -/
def updateOptions (s : FaceDetectorState) (newOptions : DetectionOptions) :
    Except FDError FaceDetectorState :=
  if s.isDisposed then
    .error { name := "FaceDetectionError", code := .unknownError
             msg := "Detector has been disposed and cannot be used again" }
  else if baseOptionsChanged s.options newOptions then
    .ok { s with options := mergeOptions s.options newOptions, loaded := none }
  else .ok s

/-- BaseDetector.dispose for the face detector: release the cached model
once (FaceDetector.onDispose, lines 773-782). -/
def dispose (s : FaceDetectorState) : FaceDetectorState :=
  if s.isDisposed then s
  else
    { s with
      releases := s.releases + (if s.loaded.isSome then 1 else 0)
      loaded := none
      isDisposed := true }

/-- FaceDetector.detectFaces restricted to the state and instrumentation
the claims need: the disposed guard, the lazy model construction with
mapConfigToTfConfig, and one estimateFaces invocation recorded with the
configuration the model was built from.  The adapter-normalized face list
is an oracle input, since inference itself is external. -/
def detectFaces (s : FaceDetectorState) (modelFaces : List PossiblyTrackedFace) :
    Except FDError (List PossiblyTrackedFace) × List FaceDetector.TfConfig × FaceDetectorState :=
  if s.isDisposed then
    (.error { name := "FaceDetectorError", code := .resourceDisposed
              msg := "Detector has been disposed and cannot be used again" }, [], s)
  else
    let cfg := s.loaded.getD (FaceDetector.mapConfigToTfConfig s.options)
    (.ok modelFaces, [cfg], { s with loaded := some cfg })

end FaceDetectorState

namespace LandmarkDetectorState

/-- LandmarkDetector construction (src/core/landmark-detector.ts lines
46-56): config.maxFaces is options?.maxFaces || 1, so an absent or zero
value becomes 1. -/
def create (options : DetectionOptions) : LandmarkDetectorState :=
  { options := options
    cfgMaxFaces :=
      match options.maxFaces with
      | some m => if m = 0 then 1 else m
      | none => 1
    loaded := false
    isDisposed := false
    releases := 0 }

/-- BaseDetector.updateOptions specialized to LandmarkDetector: on a
relevant change, merge, copy maxFaces into the model config when supplied
(LandmarkDetector.onOptionsUpdated lines 138-158) and invalidate the cached
model. -/
def updateOptions (s : LandmarkDetectorState) (newOptions : DetectionOptions) :
    Except FDError LandmarkDetectorState :=
  if s.isDisposed then
    .error { name := "FaceDetectionError", code := .unknownError
             msg := "Detector has been disposed and cannot be used again" }
  else if baseOptionsChanged s.options newOptions then
    let merged := mergeOptions s.options newOptions
    .ok { s with
          options := merged
          cfgMaxFaces := merged.maxFaces.getD s.cfgMaxFaces
          loaded := false }
  else .ok s

/-- BaseDetector.dispose for the landmark detector. -/
def dispose (s : LandmarkDetectorState) : LandmarkDetectorState :=
  if s.isDisposed then s
  else
    { s with
      releases := s.releases + (if s.loaded then 1 else 0)
      loaded := false
      isDisposed := true }

end LandmarkDetectorState

namespace FaceAPIState

/-- The FaceAPI constructor (src/core/face-api.ts lines 45-52): default
options when none are supplied, a default downscale threshold of 640, and
both adapters created from the resulting options. -/
def create (options : Option DetectionOptions) : FaceAPIState :=
  let o0 := options.getD (ConfigurationService.createDefaultOptions .browser)
  let o := { o0 with downscaleWidthThreshold := some (o0.downscaleWidthThreshold.getD 640) }
  { options := o
    fd := { options := o, loaded := none, isDisposed := false, releases := 0 }
    ld := LandmarkDetectorState.create o
    isDisposed := false }

/-- FaceAPI.updateOptions (lines 353-365): disposed guard with code
RESOURCE_DISPOSED, spread merge into the persisted options (the explicit
downscaleWidthThreshold reassignment at line 362 coincides with the spread),
then propagation to both adapters.  No option validation is performed. -/
def updateOptions (s : FaceAPIState) (options : DetectionOptions) :
    Except FDError FaceAPIState :=
  if s.isDisposed then
    .error { name := "FaceDetectionError", code := .resourceDisposed
             msg := "API has been disposed and cannot be used" }
  else
    match s.fd.updateOptions options, s.ld.updateOptions options with
    | .ok fd1, .ok ld1 =>
        .ok { options := mergeOptions s.options options
              fd := fd1, ld := ld1, isDisposed := false }
    | .error e, _ => .error e
    | _, .error e => .error e

/-- FaceAPI.dispose (lines 391-399): only acts when not yet disposed. -/
def dispose (s : FaceAPIState) : FaceAPIState :=
  if s.isDisposed then s
  else { s with fd := s.fd.dispose, ld := s.ld.dispose, isDisposed := true }

/-- The guard of the downscale block (lines 74-77 and 155-158): a positive
configured threshold, a browser environment, and an HTML input. -/
def downscaleGuard (s : FaceAPIState) (browserEnv : Bool) (input : MediaElement) : Bool :=
  (match s.options.downscaleWidthThreshold with
   | some t => decide (0 < t)
   | none => false) && browserEnv && input.kind.isHtml

/-- The scale factor the pipeline works with: the downscale result when the
guard holds, 1 otherwise. -/
def pipelineScaleFactor (s : FaceAPIState) (browserEnv : Bool) (input : MediaElement) : ℚ :=
  if downscaleGuard s browserEnv input then
    (ImageUtils.downscaleImage { width := input.width, height := input.height }
      (s.options.downscaleWidthThreshold.getD 0)).scaleFactor
  else 1

/-- The per-call options step (lines 91-93 and 172-174): when per-call
options are supplied they are merged into the persistent configuration via
updateOptions — the sticky-override behavior. -/
def applyCallOptions (s : FaceAPIState) : Option DetectionOptions → Except FDError FaceAPIState
  | none => .ok s
  | some o => s.updateOptions o

/-- Which image a landmark-inference invocation ran on: the crop produced
by the single-face optimization, or the (possibly downscaled) whole
processed input. -/
inductive LMTarget where
  | cropped (crop : ImageUtils.CropResult)
  | processed
  deriving DecidableEq, Repr

/-- Outcome of FaceAPI.detectFaces: the result (or thrown error), the face
model inference invocations performed with the configuration each ran
under, and the post-call instance state. -/
structure DetectOutcome where
  result : Except FDError (List PossiblyTrackedFace)
  inferenceCalls : List FaceDetector.TfConfig
  state : FaceAPIState

/-- Outcome of FaceAPI.detectFacesWithLandmarks, additionally recording the
landmark-inference invocations. -/
structure DetectLmOutcome where
  result : Except FDError (List FaceWithLandmarks)
  inferenceCalls : List FaceDetector.TfConfig
  landmarkCalls : List LMTarget
  state : FaceAPIState

/-- The error wrapping of the detectFaces catch block (lines 109-118). -/
def wrapDetectError (e : FDError) : FDError :=
  { name := "FaceDetectionError", code := .detectionFailed
    msg := "Face detection failed: " ++ e.msg }

/-- The error wrapping of the detectFacesWithLandmarks catch block
(lines 318-327). -/
def wrapDetectLmError (e : FDError) : FDError :=
  { name := "FaceDetectionError", code := .detectionFailed
    msg := "Face detection with landmarks failed: " ++ e.msg }

/-- FaceAPI.detectFaces (lines 60-119): disposed and input validation,
downscale, sticky per-call options, one face-detection inference on the
processed image, and the upscale of every returned box when the scale
factor is not 1.  The adapter-normalized detection list on the processed
image is the oracle input modelFaces. -/
def detectFaces (s : FaceAPIState) (browserEnv : Bool) (input : MediaElement)
    (callOptions : Option DetectionOptions) (modelFaces : List PossiblyTrackedFace) :
    DetectOutcome :=
  match ValidationService.validateDisposed s.isDisposed with
  | .error e => { result := .error e, inferenceCalls := [], state := s }
  | .ok _ =>
  match ValidationService.validateInput input with
  | .error e => { result := .error e, inferenceCalls := [], state := s }
  | .ok _ =>
    let scaleFactor := pipelineScaleFactor s browserEnv input
    match applyCallOptions s callOptions with
    | .error e => { result := .error e, inferenceCalls := [], state := s }
    | .ok s1 =>
      match s1.fd.detectFaces modelFaces with
      | (.error e, calls, fd1) =>
          { result := .error (wrapDetectError e), inferenceCalls := calls
            state := { s1 with fd := fd1 } }
      | (.ok faces, calls, fd1) =>
          let faces2 := if scaleFactor ≠ 1 then FaceAPI.upscaleFaces faces scaleFactor else faces
          { result := .ok faces2, inferenceCalls := calls, state := { s1 with fd := fd1 } }

/-- The landmark phase of FaceAPI.detectFacesWithLandmarks (lines
181-317), entered once face detection has succeeded on the processed
input: the zero-face short-circuit, the box upscale, the single-face
optimization (stable sort by descending box area, crop of the original
image in a browser with offset-adjusted landmarks, or the downscale
fallback), and the positional multi-face fusion otherwise. -/
def detectLmCore (s2 : FaceAPIState) (browserEnv : Bool) (input : MediaElement)
    (scaleFactor : ℚ) (faces : List PossiblyTrackedFace)
    (lmOracle : LMTarget → List LandmarkSet)
    (calls : List FaceDetector.TfConfig) : DetectLmOutcome :=
  if faces.isEmpty then
    { result := .ok [], inferenceCalls := calls, landmarkCalls := [], state := s2 }
  else
    let upscaledFaces :=
      if scaleFactor ≠ 1 then FaceAPI.upscaleFaces faces scaleFactor else faces
    if 1 < faces.length ∧ s2.ld.cfgMaxFaces = 1 then
      let sortedFaces := FaceAPI.sortByAreaDesc upscaledFaces
      let highestConfidenceFace := sortedFaces.headI
      if browserEnv && input.kind.isHtml then
        let originalCanvas := ImageUtils.elementToCanvas input
        let crop := ImageUtils.cropFace originalCanvas highestConfidenceFace.detection.box 0
        let landmarksOnCropped := lmOracle (.cropped crop)
        let adjustedLandmarks :=
          FaceAPI.adjustLandmarksForCrop landmarksOnCropped crop.offsetX crop.offsetY
        { result := .ok [{ detection := highestConfidenceFace.detection
                           trackingID := highestConfidenceFace.trackingID
                           landmarks := adjustedLandmarks.headD { meshPoints := [] } }]
          inferenceCalls := calls
          landmarkCalls := [.cropped crop]
          state := s2 }
      else
        let landmarkResultSets := lmOracle .processed
        let adjustedLandmarks :=
          if scaleFactor ≠ 1 then FaceAPI.upscaleLandmarks landmarkResultSets scaleFactor
          else landmarkResultSets
        { result := .ok [{ detection := highestConfidenceFace.detection
                           trackingID := highestConfidenceFace.trackingID
                           landmarks := adjustedLandmarks.headD { meshPoints := [] } }]
          inferenceCalls := calls
          landmarkCalls := [.processed]
          state := s2 }
    else
      let landmarkResultSets := lmOracle .processed
      let landmarkResultSets2 :=
        if scaleFactor ≠ 1 then FaceAPI.upscaleLandmarks landmarkResultSets scaleFactor
        else landmarkResultSets
      { result := .ok (FaceAPI.mapFacesToLandmarks upscaledFaces landmarkResultSets2)
        inferenceCalls := calls
        landmarkCalls := [.processed]
        state := s2 }

/-- FaceAPI.detectFacesWithLandmarks (lines 141-328): validation, downscale
and sticky options as in detectFaces, one face-detection inference, then
the landmark phase detectLmCore. -/
def detectFacesWithLandmarks (s : FaceAPIState) (browserEnv : Bool) (input : MediaElement)
    (callOptions : Option DetectionOptions) (modelFaces : List PossiblyTrackedFace)
    (lmOracle : LMTarget → List LandmarkSet) : DetectLmOutcome :=
  match ValidationService.validateDisposed s.isDisposed with
  | .error e => { result := .error e, inferenceCalls := [], landmarkCalls := [], state := s }
  | .ok _ =>
  match ValidationService.validateInput input with
  | .error e => { result := .error e, inferenceCalls := [], landmarkCalls := [], state := s }
  | .ok _ =>
    let scaleFactor := pipelineScaleFactor s browserEnv input
    match applyCallOptions s callOptions with
    | .error e => { result := .error e, inferenceCalls := [], landmarkCalls := [], state := s }
    | .ok s1 =>
      match s1.fd.detectFaces modelFaces with
      | (.error e, calls, fd1) =>
          { result := .error (wrapDetectLmError e), inferenceCalls := calls
            landmarkCalls := [], state := { s1 with fd := fd1 } }
      | (.ok faces, calls, fd1) =>
          detectLmCore { s1 with fd := fd1 } browserEnv input scaleFactor faces lmOracle calls

end FaceAPIState

/-- downscale_box modelled from the spec (section 8, round-trip property):
a box detected on an image downscaled by factor f has every coordinate of
the original-space box multiplied by f.  This is the spec-side definition
compared against the source-side FaceAPI.upscaleBox. -/
def scaleBoxSpec (box : Box) (f : ℚ) : Box :=
  { x := box.x * f, y := box.y * f, width := box.width * f, height := box.height * f }

deriving instance DecidableEq for Except

/-- C3: the orchestrator upscale step divides every box coordinate by the
scale factor, so for every scale factor f in (0,1] it inverts the
coordinate-wise multiplication by f (round-trip identity). -/
theorem upscaleBox_roundtrip (B : Box) (f : ℚ) (h0 : 0 < f) (_h1 : f ≤ 1) :
    FaceAPI.upscaleBox B f =
      { x := B.x / f, y := B.y / f, width := B.width / f, height := B.height / f } ∧
    FaceAPI.upscaleBox (scaleBoxSpec B f) f = B := by
  refine ⟨rfl, ?_⟩
  cases B with
  | mk x y w h =>
    simp [scaleBoxSpec, FaceAPI.upscaleBox, mul_div_cancel_right₀ _ (ne_of_gt h0)]

/-- Witness for upscaleBox_roundtrip: with f = 1/2, the downscaled-space
box (200,100,100,100) is reported as (400,200,200,200). -/
theorem upscaleBox_roundtrip_witness :
    (0 < (1 : ℚ) / 2) ∧ ((1 : ℚ) / 2 ≤ 1) ∧
    scaleBoxSpec ⟨400, 200, 200, 200⟩ ((1 : ℚ) / 2) = ⟨200, 100, 100, 100⟩ ∧
    FaceAPI.upscaleBox (scaleBoxSpec ⟨400, 200, 200, 200⟩ ((1 : ℚ) / 2)) ((1 : ℚ) / 2) =
      ⟨400, 200, 200, 200⟩ :=
  ⟨by norm_num, by norm_num, by norm_num [scaleBoxSpec, Box.mk.injEq],
    (upscaleBox_roundtrip ⟨400, 200, 200, 200⟩ ((1 : ℚ) / 2) (by norm_num) (by norm_num)).2⟩

/-- C5: downscaleImage never upsamples (width at most the target gives a
same-size copy with scale factor 1); otherwise it returns scale factor
targetWidth / originalWidth, a result of width exactly targetWidth and
height round(originalHeight * scaleFactor); the scale factor always lies
in (0, 1]. -/
theorem downscaleImage_spec (c : Canvas) (targetWidth : ℕ) (hpos : 0 < targetWidth) :
    (c.width ≤ targetWidth →
      ImageUtils.downscaleImage c targetWidth =
        { downscaledCanvas := { width := c.width, height := c.height }, scaleFactor := 1 }) ∧
    (targetWidth < c.width →
      (ImageUtils.downscaleImage c targetWidth).scaleFactor = (targetWidth : ℚ) / (c.width : ℚ) ∧
      (ImageUtils.downscaleImage c targetWidth).downscaledCanvas.width = targetWidth ∧
      (ImageUtils.downscaleImage c targetWidth).downscaledCanvas.height =
        (jsRound ((c.height : ℚ) * ((targetWidth : ℚ) / (c.width : ℚ)))).toNat) ∧
    0 < (ImageUtils.downscaleImage c targetWidth).scaleFactor ∧
    (ImageUtils.downscaleImage c targetWidth).scaleFactor ≤ 1 := by
  by_cases hle : c.width ≤ targetWidth
  · refine ⟨fun _ => by simp [ImageUtils.downscaleImage, hle], fun hlt => absurd hle (by omega), ?_, ?_⟩
    · simp [ImageUtils.downscaleImage, hle]
    · simp [ImageUtils.downscaleImage, hle]
  · have hlt : targetWidth < c.width := Nat.lt_of_not_le hle
    have hw : (0 : ℚ) < (c.width : ℚ) := by exact_mod_cast Nat.lt_of_lt_of_le hpos (Nat.le_of_lt hlt)
    have ht : (0 : ℚ) < (targetWidth : ℚ) := by exact_mod_cast hpos
    refine ⟨fun h => absurd h hle, fun _ => ⟨by simp [ImageUtils.downscaleImage, hle],
      by simp [ImageUtils.downscaleImage, hle], by simp [ImageUtils.downscaleImage, hle]⟩, ?_, ?_⟩
    · simp only [ImageUtils.downscaleImage, hle, if_false]
      exact div_pos ht hw
    · simp only [ImageUtils.downscaleImage, hle, if_false]
      exact (div_le_one hw).mpr (by exact_mod_cast Nat.le_of_lt hlt)

/-- Witness for downscaleImage_spec: a 1280 by 720 input downscaled to
target width 640 yields a 640 by 360 canvas with scale factor 1/2. -/
theorem downscaleImage_spec_witness :
    (0 < 640) ∧
    ((640 < (1280 : ℕ)) →
      (ImageUtils.downscaleImage ⟨1280, 720⟩ 640).scaleFactor = (640 : ℚ) / (1280 : ℚ) ∧
      (ImageUtils.downscaleImage ⟨1280, 720⟩ 640).downscaledCanvas.width = 640 ∧
      (ImageUtils.downscaleImage ⟨1280, 720⟩ 640).downscaledCanvas.height =
        (jsRound ((720 : ℚ) * ((640 : ℚ) / (1280 : ℚ)))).toNat) ∧
    0 < (ImageUtils.downscaleImage ⟨1280, 720⟩ 640).scaleFactor :=
  ⟨by decide, ((downscaleImage_spec ⟨1280, 720⟩ 640 (by decide)).2).1,
    ((downscaleImage_spec ⟨1280, 720⟩ 640 (by decide)).2).2.1⟩

/-- C6: mapFacesToLandmarks pairs detections with landmark sets by
positional index — it preserves length and each detection, the i-th face
receives the i-th landmark set, and when the landmark list is shorter the
remaining faces receive an empty mesh-point list. -/
theorem mapFacesToLandmarks_positional (faces : List PossiblyTrackedFace)
    (sets : List LandmarkSet) (i : ℕ) (hi : i < faces.length) :
    (FaceAPI.mapFacesToLandmarks faces sets).length = faces.length ∧
    ((FaceAPI.mapFacesToLandmarks faces sets)[i]?).map (fun f => f.detection) =
      (faces[i]?).map (fun f => f.detection) ∧
    ((FaceAPI.mapFacesToLandmarks faces sets)[i]?).map (fun f => f.landmarks) =
      some (sets.getD i { meshPoints := [] }) ∧
    (sets.length ≤ i → sets.getD i { meshPoints := [] } = { meshPoints := [] }) := by
  have hget : ∀ j : ℕ, (FaceAPI.mapFacesToLandmarks faces sets)[j]? =
      (faces[j]?).map fun face =>
        ({ detection := face.detection, trackingID := face.trackingID
           landmarks := sets.getD j { meshPoints := [] } } : FaceWithLandmarks) := by
    intro j
    simp [FaceAPI.mapFacesToLandmarks, List.getElem?_map, List.getElem?_enum, Option.map_map]
    rfl
  have hface : faces[i]? = some faces[i] := List.getElem?_eq_getElem hi
  refine ⟨?_, ?_, ?_, fun hle => List.getD_eq_default sets _ hle⟩
  · simp [FaceAPI.mapFacesToLandmarks, List.enum_length]
  · rw [hget i, Option.map_map, hface]
    simp
  · rw [hget i, Option.map_map, hface]
    simp

/-- Witness for mapFacesToLandmarks_positional at a concrete index. -/
theorem mapFacesToLandmarks_positional_witness :
    (1 < ([⟨⟨1, ⟨0, 0, 2, 2⟩⟩, none⟩, ⟨⟨1, ⟨1, 1, 3, 3⟩⟩, none⟩] :
        List PossiblyTrackedFace).length) ∧
    ((FaceAPI.mapFacesToLandmarks
        [⟨⟨1, ⟨0, 0, 2, 2⟩⟩, none⟩, ⟨⟨1, ⟨1, 1, 3, 3⟩⟩, none⟩]
        [⟨[⟨5, 6, 7⟩]⟩])[1]?).map (fun f => f.landmarks) =
      some (([⟨[⟨5, 6, 7⟩]⟩] : List LandmarkSet).getD 1 { meshPoints := [] }) :=
  ⟨by decide,
    (mapFacesToLandmarks_positional
      [⟨⟨1, ⟨0, 0, 2, 2⟩⟩, none⟩, ⟨⟨1, ⟨1, 1, 3, 3⟩⟩, none⟩]
      [⟨[⟨5, 6, 7⟩]⟩] 1 (by decide)).2.2.1⟩

/-- C9: the two landmark remappings change only x and y of each mesh
point: the crop path adds the crop offset to x and y, the downscale
fallback divides x and y by the scale factor, and both leave z unchanged. -/
theorem landmark_remap_moves_only_xy (sets : List LandmarkSet) (offsetX offsetY f : ℚ)
    (i j : ℕ) (st : LandmarkSet) (p : Point3D)
    (hset : sets[i]? = some st) (hpt : st.meshPoints[j]? = some p) :
    (∃ st1, (FaceAPI.adjustLandmarksForCrop sets offsetX offsetY)[i]? = some st1 ∧
      st1.meshPoints[j]? = some { x := p.x + offsetX, y := p.y + offsetY, z := p.z }) ∧
    (∃ st2, (FaceAPI.upscaleLandmarks sets f)[i]? = some st2 ∧
      st2.meshPoints[j]? = some { x := p.x / f, y := p.y / f, z := p.z }) := by
  constructor
  · refine ⟨{ meshPoints := st.meshPoints.map fun q =>
        { x := q.x + offsetX, y := q.y + offsetY, z := q.z } }, ?_, ?_⟩
    · simp [FaceAPI.adjustLandmarksForCrop, List.getElem?_map, hset]
    · simp [List.getElem?_map, hpt]
  · refine ⟨{ meshPoints := st.meshPoints.map fun q =>
        { x := q.x / f, y := q.y / f, z := q.z } }, ?_, ?_⟩
    · simp [FaceAPI.upscaleLandmarks, List.getElem?_map, hset]
    · simp [List.getElem?_map, hpt]

/-- Witness for landmark_remap_moves_only_xy. -/
theorem landmark_remap_moves_only_xy_witness :
    (([⟨[⟨10, 20, 30⟩]⟩] : List LandmarkSet)[0]? = some ⟨[⟨10, 20, 30⟩]⟩) ∧
    (∃ st1, (FaceAPI.adjustLandmarksForCrop [⟨[⟨10, 20, 30⟩]⟩] 3 4)[0]? = some st1 ∧
      st1.meshPoints[0]? = some { x := (10 : ℚ) + 3, y := (20 : ℚ) + 4, z := 30 }) :=
  ⟨by decide,
    (landmark_remap_moves_only_xy [⟨[⟨10, 20, 30⟩]⟩] 3 4 2 0 0 ⟨[⟨10, 20, 30⟩]⟩ ⟨10, 20, 30⟩
      (by decide) (by decide)).1⟩

/-- C10: when a raw detection has a geometrically valid bounding box but no
score source yields a positive confidence value, the adapter normalization
assigns the fixed high confidence 0.95 rather than 0. -/
theorem mapDetectedFaces_fallback_score (faces : List RawFace) (i : ℕ) (f : RawFace)
    (hget : faces[i]? = some f)
    (hbox : FaceDetector.hasValidRawBox f = true)
    (hscore : FaceDetector.isPositiveNumber f.score = false)
    (hconf : FaceDetector.isPositiveNumber f.confidence = false)
    (hkp0 : FaceDetector.isPositiveNumber (FaceDetector.keypointScore0 f) = false)
    (hprob : FaceDetector.isPositiveNumber (FaceDetector.probability0 f) = false)
    (hkpall : ∀ kps, f.keypoints = some kps → ∀ kp ∈ kps, ∀ sc, kp.score = some sc → sc ≤ 0) :
    ((FaceDetector.mapDetectedFaces faces)[i]?).map (fun d => d.score) =
      some ((95 : ℚ) / 100) := by
  have hcs : FaceDetector.computeScore f = 0 := by
    unfold FaceDetector.computeScore
    rw [hscore, hconf, hkp0, hprob]
    simp only [Bool.false_eq_true, if_false]
    cases hk : f.keypoints with
    | none => rfl
    | some kps =>
      have hempty : FaceDetector.positiveKeypointScores kps = [] := by
        unfold FaceDetector.positiveKeypointScores
        rw [List.filter_eq_nil_iff]
        intro a ha
        obtain ⟨kp, hkp, hkpeq⟩ := List.mem_filterMap.mp ha
        simp only [decide_eq_true_eq]
        exact not_lt.mpr (hkpall kps hk kp hkp a hkpeq)
      simp [hempty]
  unfold FaceDetector.mapDetectedFaces
  rw [List.getElem?_map, hget]
  simp [FaceDetector.mapSingleFace, hcs, hbox]

/-- Witness for mapDetectedFaces_fallback_score: a raw face carrying only a
valid box and no score data of any shape is normalized to score 0.95. -/
theorem mapDetectedFaces_fallback_score_witness :
    (([({ score := none, confidence := none, keypoints := none, probability := none
          box := some { xMin := some 10, yMin := some 20, width := some 30, height := some 40 }
          trackingID := none } : RawFace)])[0]? =
       some { score := none, confidence := none, keypoints := none, probability := none
              box := some { xMin := some 10, yMin := some 20, width := some 30, height := some 40 }
              trackingID := none }) ∧
    FaceDetector.hasValidRawBox
      { score := none, confidence := none, keypoints := none, probability := none
        box := some { xMin := some 10, yMin := some 20, width := some 30, height := some 40 }
        trackingID := none } = true ∧
    ((FaceDetector.mapDetectedFaces
        [{ score := none, confidence := none, keypoints := none, probability := none
           box := some { xMin := some 10, yMin := some 20, width := some 30, height := some 40 }
           trackingID := none }])[0]?).map (fun d => d.score) = some ((95 : ℚ) / 100) :=
  ⟨rfl, by decide,
    mapDetectedFaces_fallback_score _ 0 _ rfl (by decide) (by decide) (by decide) (by decide)
      (by decide) (fun kps hk => Option.noConfusion hk)⟩

namespace FaceAPI

theorem mem_insertByAreaDesc {a face : PossiblyTrackedFace} {l : List PossiblyTrackedFace} :
    a ∈ insertByAreaDesc face l ↔ a = face ∨ a ∈ l := by
  induction l with
  | nil => simp [insertByAreaDesc]
  | cons g gs ih =>
    by_cases h : faceArea face < faceArea g
    · simp only [insertByAreaDesc, if_pos h, List.mem_cons, ih]
      tauto
    · simp only [insertByAreaDesc, if_neg h, List.mem_cons]

theorem mem_sortByAreaDesc {a : PossiblyTrackedFace} {l : List PossiblyTrackedFace} :
    a ∈ sortByAreaDesc l ↔ a ∈ l := by
  induction l with
  | nil => simp [sortByAreaDesc]
  | cons f fs ih =>
    simp only [sortByAreaDesc, mem_insertByAreaDesc, List.mem_cons, ih]

/-- The head of the stable descending-area sort is the earliest face of
maximal area: any decomposition pre ++ sel :: post where everything before
sel has strictly smaller area and everything after has area at most that of
sel puts sel first. -/
theorem head?_sortByAreaDesc (pre post : List PossiblyTrackedFace)
    (sel : PossiblyTrackedFace)
    (hpre : ∀ g ∈ pre, faceArea g < faceArea sel)
    (hpost : ∀ g ∈ post, faceArea g ≤ faceArea sel) :
    (sortByAreaDesc (pre ++ sel :: post)).head? = some sel := by
  induction pre with
  | nil =>
    simp only [List.nil_append, sortByAreaDesc]
    cases hs : sortByAreaDesc post with
    | nil => simp [insertByAreaDesc]
    | cons g gs =>
      have hg : g ∈ post := mem_sortByAreaDesc.mp (hs ▸ List.mem_cons_self g gs)
      have : ¬ faceArea sel < faceArea g := not_lt.mpr (hpost g hg)
      simp [insertByAreaDesc, this]
  | cons p pre2 ih =>
    have ih2 := ih (fun g hg => hpre g (List.mem_cons_of_mem p hg))
    simp only [List.cons_append, sortByAreaDesc]
    cases hs : sortByAreaDesc (pre2 ++ sel :: post) with
    | nil => simp [hs] at ih2
    | cons g gs =>
      have hgsel : g = sel := by
        rw [hs] at ih2
        simpa using ih2
      subst hgsel
      have hlt : faceArea p < faceArea g := hpre p (List.mem_cons_self p pre2)
      simp [insertByAreaDesc, hlt]

theorem headI_of_head? {l : List PossiblyTrackedFace} {a : PossiblyTrackedFace}
    (h : l.head? = some a) : l.headI = a := by
  cases l with
  | nil => simp at h
  | cons b bs =>
    simp only [List.head?_cons, Option.some.injEq] at h
    simpa [List.headI] using h

theorem faceArea_upscaleFace (g : PossiblyTrackedFace) (f : ℚ) :
    faceArea (upscaleFace g f) = faceArea g / (f * f) := by
  simp [faceArea, upscaleFace, upscaleBox, div_mul_div_comm]

theorem upscaleFace_one (g : PossiblyTrackedFace) : upscaleFace g 1 = g := by
  simp [upscaleFace, upscaleBox]

end FaceAPI

theorem pipelineScaleFactor_bounds (s : FaceAPIState) (b : Bool) (i : MediaElement) :
    0 < FaceAPIState.pipelineScaleFactor s b i ∧ FaceAPIState.pipelineScaleFactor s b i ≤ 1 := by
  unfold FaceAPIState.pipelineScaleFactor
  split
  · rename_i hguard
    unfold FaceAPIState.downscaleGuard at hguard
    cases hth : s.options.downscaleWidthThreshold with
    | none => rw [hth] at hguard; simp at hguard
    | some t =>
      rw [hth] at hguard
      simp only [Bool.and_eq_true, decide_eq_true_eq] at hguard
      obtain ⟨⟨ht, _⟩, _⟩ := hguard
      simp only [Option.getD_some]
      unfold ImageUtils.downscaleImage
      split
      · exact ⟨one_pos, le_refl 1⟩
      · rename_i hle
        have hlt : t < i.width := Nat.lt_of_not_le hle
        have hwpos : (0 : ℚ) < (i.width : ℚ) := by
          exact_mod_cast Nat.lt_of_lt_of_le ht hlt.le
        refine ⟨div_pos (by exact_mod_cast ht) hwpos, (div_le_one hwpos).mpr ?_⟩
        exact_mod_cast hlt.le
  · exact ⟨one_pos, le_refl 1⟩

/-- Reduction of detectFacesWithLandmarks to its landmark phase on the
success path: not disposed, valid input, per-call options accepted, and the
face-detector adapter alive. -/
theorem detectFacesWithLandmarks_success (s s1 : FaceAPIState) (browserEnv : Bool)
    (input : MediaElement) (callOptions : Option DetectionOptions)
    (modelFaces : List PossiblyTrackedFace)
    (lmOracle : FaceAPIState.LMTarget → List LandmarkSet)
    (hnd : s.isDisposed = false)
    (hin : ValidationService.validateInput input = .ok ())
    (hopts : FaceAPIState.applyCallOptions s callOptions = .ok s1)
    (hfd : s1.fd.isDisposed = false) :
    FaceAPIState.detectFacesWithLandmarks s browserEnv input callOptions modelFaces lmOracle =
      FaceAPIState.detectLmCore
        { s1 with fd := { s1.fd with
            loaded := some (s1.fd.loaded.getD (FaceDetector.mapConfigToTfConfig s1.fd.options)) } }
        browserEnv input (FaceAPIState.pipelineScaleFactor s browserEnv input) modelFaces
        lmOracle [s1.fd.loaded.getD (FaceDetector.mapConfigToTfConfig s1.fd.options)] := by
  unfold FaceAPIState.detectFacesWithLandmarks
  rw [hnd, hin, hopts]
  simp [ValidationService.validateDisposed, FaceDetectorState.detectFaces, hfd]

/-- C2: when more than one face is detected and the landmark configuration
caps landmark detection at one face, detectFacesWithLandmarks returns
exactly one face — the one whose bounding box has the largest area, with
ties broken in favor of the earliest face in detection order, regardless
of confidence scores. -/
theorem detectWithLandmarks_selects_largest_area
    (s s1 : FaceAPIState) (browserEnv : Bool) (input : MediaElement)
    (callOptions : Option DetectionOptions)
    (lmOracle : FaceAPIState.LMTarget → List LandmarkSet)
    (pre post : List PossiblyTrackedFace) (sel : PossiblyTrackedFace)
    (hnd : s.isDisposed = false)
    (hin : ValidationService.validateInput input = .ok ())
    (hopts : FaceAPIState.applyCallOptions s callOptions = .ok s1)
    (hfd : s1.fd.isDisposed = false)
    (hcap : s1.ld.cfgMaxFaces = 1)
    (hlen : 1 < (pre ++ sel :: post).length)
    (hpre : ∀ g ∈ pre, FaceAPI.faceArea g < FaceAPI.faceArea sel)
    (hpost : ∀ g ∈ post, FaceAPI.faceArea g ≤ FaceAPI.faceArea sel) :
    ∃ lm, (FaceAPIState.detectFacesWithLandmarks s browserEnv input callOptions
        (pre ++ sel :: post) lmOracle).result =
      .ok [{ detection :=
               (FaceAPI.upscaleFace sel (FaceAPIState.pipelineScaleFactor s browserEnv input)).detection
             trackingID := sel.trackingID
             landmarks := lm }] := by
  rw [detectFacesWithLandmarks_success s s1 browserEnv input callOptions
    (pre ++ sel :: post) lmOracle hnd hin hopts hfd]
  obtain ⟨hfpos, _⟩ := pipelineScaleFactor_bounds s browserEnv input
  set f := FaceAPIState.pipelineScaleFactor s browserEnv input with hfdef
  unfold FaceAPIState.detectLmCore
  have hne : (pre ++ sel :: post).isEmpty = false := by cases pre <;> rfl
  rw [hne]
  simp only [Bool.false_eq_true, if_false, hcap, hlen, and_self, if_true, if_pos]
  by_cases hone : f = 1
  · have hhead : (FaceAPI.sortByAreaDesc (pre ++ sel :: post)).headI = sel :=
      FaceAPI.headI_of_head? (FaceAPI.head?_sortByAreaDesc pre post sel hpre hpost)
    rw [hone]
    simp only [ne_eq, not_true_eq_false, if_false, hhead, FaceAPI.upscaleFace_one]
    by_cases hb : (browserEnv && input.kind.isHtml) = true
    · rw [if_pos hb]
      exact ⟨_, rfl⟩
    · rw [if_neg (by simpa using hb)]
      exact ⟨_, rfl⟩
  · have hsplit : FaceAPI.upscaleFaces (pre ++ sel :: post) f =
        pre.map (fun g => FaceAPI.upscaleFace g f) ++
          FaceAPI.upscaleFace sel f :: post.map (fun g => FaceAPI.upscaleFace g f) := by
      simp [FaceAPI.upscaleFaces]
    have hf2 : 0 < f * f := mul_pos hfpos hfpos
    have hpre2 : ∀ g ∈ pre.map (fun g => FaceAPI.upscaleFace g f),
        FaceAPI.faceArea g < FaceAPI.faceArea (FaceAPI.upscaleFace sel f) := by
      intro g hg
      obtain ⟨g0, hg0, rfl⟩ := List.mem_map.mp hg
      rw [FaceAPI.faceArea_upscaleFace, FaceAPI.faceArea_upscaleFace]
      exact (div_lt_div_iff_of_pos_right hf2).mpr (hpre g0 hg0)
    have hpost2 : ∀ g ∈ post.map (fun g => FaceAPI.upscaleFace g f),
        FaceAPI.faceArea g ≤ FaceAPI.faceArea (FaceAPI.upscaleFace sel f) := by
      intro g hg
      obtain ⟨g0, hg0, rfl⟩ := List.mem_map.mp hg
      rw [FaceAPI.faceArea_upscaleFace, FaceAPI.faceArea_upscaleFace]
      exact (div_le_div_iff_of_pos_right hf2).mpr (hpost g0 hg0)
    have hhead : (FaceAPI.sortByAreaDesc (FaceAPI.upscaleFaces (pre ++ sel :: post) f)).headI =
        FaceAPI.upscaleFace sel f := by
      rw [hsplit]
      exact FaceAPI.headI_of_head? (FaceAPI.head?_sortByAreaDesc _ _ _ hpre2 hpost2)
    simp only [ne_eq, hone, not_false_eq_true, if_true, hhead]
    by_cases hb : (browserEnv && input.kind.isHtml) = true
    · rw [if_pos hb]
      exact ⟨_, rfl⟩
    · rw [if_neg (by simpa using hb)]
      exact ⟨_, rfl⟩

/-- Witness for detectWithLandmarks_selects_largest_area: a 40 by 40 box
with score 0.6 loses the single-face selection to a 100 by 100 box with
score 0.5. -/
theorem detectWithLandmarks_selects_largest_area_witness :
    FaceAPI.faceArea ⟨⟨(3 : ℚ) / 5, ⟨0, 0, 40, 40⟩⟩, none⟩ <
      FaceAPI.faceArea ⟨⟨(1 : ℚ) / 2, ⟨10, 10, 100, 100⟩⟩, none⟩ ∧
    (FaceAPIState.create (some { maxFaces := some 1 })).ld.cfgMaxFaces = 1 ∧
    ∃ lm, (FaceAPIState.detectFacesWithLandmarks
        (FaceAPIState.create (some { maxFaces := some 1 })) false ⟨640, 480, .nodeCanvas⟩ none
        [⟨⟨(3 : ℚ) / 5, ⟨0, 0, 40, 40⟩⟩, none⟩, ⟨⟨(1 : ℚ) / 2, ⟨10, 10, 100, 100⟩⟩, none⟩]
        (fun _ => [⟨[⟨1, 2, 3⟩]⟩])).result =
      .ok [{ detection :=
               (FaceAPI.upscaleFace ⟨⟨(1 : ℚ) / 2, ⟨10, 10, 100, 100⟩⟩, none⟩
                 (FaceAPIState.pipelineScaleFactor
                   (FaceAPIState.create (some { maxFaces := some 1 })) false
                   ⟨640, 480, .nodeCanvas⟩)).detection
             trackingID := none
             landmarks := lm }] :=
  ⟨by norm_num [FaceAPI.faceArea], by decide,
    detectWithLandmarks_selects_largest_area
      (FaceAPIState.create (some { maxFaces := some 1 }))
      (FaceAPIState.create (some { maxFaces := some 1 })) false ⟨640, 480, .nodeCanvas⟩ none
      (fun _ => [⟨[⟨1, 2, 3⟩]⟩])
      [⟨⟨(3 : ℚ) / 5, ⟨0, 0, 40, 40⟩⟩, none⟩] [] ⟨⟨(1 : ℚ) / 2, ⟨10, 10, 100, 100⟩⟩, none⟩
      rfl (by decide) rfl rfl (by decide) (by decide)
      (by
        intro g hg
        simp only [List.mem_singleton] at hg
        subst hg
        norm_num [FaceAPI.faceArea])
      (by intro g hg; cases hg)⟩

/-- C4: when face detection returns zero faces, detectFacesWithLandmarks
returns an empty face list and performs no landmark-inference invocation. -/
theorem detectWithLandmarks_zero_faces_skips_landmarks
    (s s1 : FaceAPIState) (browserEnv : Bool) (input : MediaElement)
    (callOptions : Option DetectionOptions)
    (lmOracle : FaceAPIState.LMTarget → List LandmarkSet)
    (hnd : s.isDisposed = false)
    (hin : ValidationService.validateInput input = .ok ())
    (hopts : FaceAPIState.applyCallOptions s callOptions = .ok s1)
    (hfd : s1.fd.isDisposed = false) :
    (FaceAPIState.detectFacesWithLandmarks s browserEnv input callOptions [] lmOracle).result =
      .ok [] ∧
    (FaceAPIState.detectFacesWithLandmarks s browserEnv input callOptions [] lmOracle).landmarkCalls =
      [] := by
  rw [detectFacesWithLandmarks_success s s1 browserEnv input callOptions [] lmOracle
    hnd hin hopts hfd]
  exact ⟨rfl, rfl⟩

/-- Witness for detectWithLandmarks_zero_faces_skips_landmarks. -/
theorem detectWithLandmarks_zero_faces_skips_landmarks_witness :
    ((FaceAPIState.create none).isDisposed = false) ∧
    (FaceAPIState.detectFacesWithLandmarks (FaceAPIState.create none) false
        ⟨640, 480, .nodeCanvas⟩ none [] (fun _ => [⟨[⟨1, 2, 3⟩]⟩])).result = .ok [] ∧
    (FaceAPIState.detectFacesWithLandmarks (FaceAPIState.create none) false
        ⟨640, 480, .nodeCanvas⟩ none [] (fun _ => [⟨[⟨1, 2, 3⟩]⟩])).landmarkCalls = [] :=
  ⟨rfl,
    detectWithLandmarks_zero_faces_skips_landmarks (FaceAPIState.create none)
      (FaceAPIState.create none) false ⟨640, 480, .nodeCanvas⟩ none
      (fun _ => [⟨[⟨1, 2, 3⟩]⟩]) rfl (by decide) rfl rfl⟩

/-- The landmark phase never returns more faces than face detection found. -/
theorem detectLmCore_length_le (s2 : FaceAPIState) (browserEnv : Bool) (input : MediaElement)
    (scaleFactor : ℚ) (faces : List PossiblyTrackedFace)
    (lmOracle : FaceAPIState.LMTarget → List LandmarkSet)
    (calls : List FaceDetector.TfConfig) (out : List FaceWithLandmarks)
    (h : (FaceAPIState.detectLmCore s2 browserEnv input scaleFactor faces lmOracle calls).result =
      .ok out) :
    out.length ≤ faces.length := by
  have hup : ∀ fs : List PossiblyTrackedFace,
      (if scaleFactor ≠ 1 then FaceAPI.upscaleFaces fs scaleFactor else fs).length = fs.length := by
    intro fs
    by_cases hf : scaleFactor = 1
    · simp [hf]
    · simp [hf, FaceAPI.upscaleFaces]
  simp only [FaceAPIState.detectLmCore] at h
  by_cases he : faces.isEmpty
  · rw [if_pos he] at h
    simp only [Except.ok.injEq] at h
    subst h
    simp
  · rw [if_neg he] at h
    by_cases hc : 1 < faces.length ∧ s2.ld.cfgMaxFaces = 1
    · rw [if_pos hc] at h
      by_cases hb : (browserEnv && input.kind.isHtml) = true
      · rw [if_pos hb] at h
        simp only [Except.ok.injEq] at h
        subst h
        simpa using Nat.le_of_lt hc.1
      · rw [if_neg (by simpa using hb)] at h
        simp only [Except.ok.injEq] at h
        subst h
        simpa using Nat.le_of_lt hc.1
    · rw [if_neg hc] at h
      simp only [Except.ok.injEq] at h
      subst h
      simp only [FaceAPI.mapFacesToLandmarks, List.length_map, List.enum_length]
      rw [hup faces]

/-- C8: the faces list of a combined detect-with-landmarks result is never
longer than the list returned by the face-detection step of the same
call — landmark fusion never adds detections. -/
theorem detectWithLandmarks_never_adds_faces
    (s : FaceAPIState) (browserEnv : Bool) (input : MediaElement)
    (callOptions : Option DetectionOptions) (modelFaces : List PossiblyTrackedFace)
    (lmOracle : FaceAPIState.LMTarget → List LandmarkSet) (out : List FaceWithLandmarks)
    (h : (FaceAPIState.detectFacesWithLandmarks s browserEnv input callOptions modelFaces
        lmOracle).result = .ok out) :
    out.length ≤ modelFaces.length := by
  unfold FaceAPIState.detectFacesWithLandmarks at h
  split at h
  · simp at h
  · split at h
    · simp at h
    · split at h
      · simp at h
      · split at h
        · simp at h
        · rename_i s1 het faces calls fd1 heq
          unfold FaceDetectorState.detectFaces at heq
          split at heq
          · simp at heq
          · simp only [Prod.mk.injEq, Except.ok.injEq] at heq
            obtain ⟨hfaces, -, -⟩ := heq
            subst hfaces
            exact detectLmCore_length_le _ _ _ _ _ _ _ _ h

/-- C1: ValidationService.validateOptions does reject scoreThreshold
outside [0,1] and maxFaces below 1, but FaceAPI never invokes it: such
configurations are accepted at construction, by updateOptions and as
per-call options, and face-detection inference is then invoked with the
invalid configuration. -/
theorem invalid_options_reach_inference :
    (ValidationService.validateOptions { scoreThreshold := some 2 } =
      .error { name := "FaceDetectionError", code := .unknownError
               msg := "scoreThreshold must be between 0 and 1" }) ∧
    (ValidationService.validateOptions { maxFaces := some 0 } =
      .error { name := "FaceDetectionError", code := .unknownError
               msg := "maxFaces must be greater than 0" }) ∧
    (((FaceAPIState.create (some { scoreThreshold := some 1 })).updateOptions
        { scoreThreshold := some 2 }).map
      (fun s1 => (FaceAPIState.detectFaces s1 false ⟨640, 480, .nodeCanvas⟩ none
        []).inferenceCalls) =
      .ok [{ scoreThreshold := 2, maxFaces := 10 }]) ∧
    (((FaceAPIState.create (some { scoreThreshold := some 1 })).updateOptions
        { maxFaces := some 0 }).map
      (fun s1 => (FaceAPIState.detectFaces s1 false ⟨640, 480, .nodeCanvas⟩ none
        []).inferenceCalls) =
      .ok [{ scoreThreshold := 1, maxFaces := 0 }]) ∧
    ((FaceAPIState.create (some { scoreThreshold := some 2 })).detectFaces false
        ⟨640, 480, .nodeCanvas⟩ none []).inferenceCalls =
      [{ scoreThreshold := 2, maxFaces := 10 }] ∧
    ((FaceAPIState.create (some { scoreThreshold := some 1 })).detectFaces false
        ⟨640, 480, .nodeCanvas⟩ (some { scoreThreshold := some 2 }) []).inferenceCalls =
      [{ scoreThreshold := 2, maxFaces := 10 }] := by
  decide

/-- C7 counterexample: after dispose, detectFaces does fail, but the thrown
FaceDetectionError carries the default code UNKNOWN_ERROR — not
RESOURCE_DISPOSED — because ValidationService.validateDisposed passes no
error details. -/
theorem disposed_detect_code_not_resourceDisposed :
    ((FaceAPIState.create none).dispose.detectFaces false ⟨640, 480, .nodeCanvas⟩ none
      []).result =
      .error { name := "FaceDetectionError", code := .unknownError
               msg := "API has been disposed and cannot be used again" } ∧
    ErrorCode.unknownError ≠ ErrorCode.resourceDisposed := by
  decide

theorem dispose_of_disposed {t : FaceAPIState} (h : t.isDisposed = true) : t.dispose = t := by
  unfold FaceAPIState.dispose
  rw [h]
  simp

/-- C7 (amended): after dispose, every call to detectFaces,
detectFacesWithLandmarks or updateOptions fails without invoking any
inference — detect and detectWithLandmarks with a FaceDetectionError whose
code is the default UNKNOWN_ERROR, updateOptions with code
RESOURCE_DISPOSED — and a second dispose is a no-op: it returns the
identical state, so no second release of adapter resources occurs. -/
theorem dispose_idempotent_and_blocks_operations
    (s : FaceAPIState) (browserEnv : Bool) (input : MediaElement)
    (callOptions : Option DetectionOptions) (modelFaces : List PossiblyTrackedFace)
    (lmOracle : FaceAPIState.LMTarget → List LandmarkSet) (o : DetectionOptions) :
    (s.dispose).isDisposed = true ∧
    (s.dispose).dispose = s.dispose ∧
    ((s.dispose).dispose).fd.releases = (s.dispose).fd.releases ∧
    ((s.dispose).dispose).ld.releases = (s.dispose).ld.releases ∧
    ((s.dispose).detectFaces browserEnv input callOptions modelFaces).result =
      .error { name := "FaceDetectionError", code := .unknownError
               msg := "API has been disposed and cannot be used again" } ∧
    ((s.dispose).detectFaces browserEnv input callOptions modelFaces).inferenceCalls = [] ∧
    ((s.dispose).detectFacesWithLandmarks browserEnv input callOptions modelFaces
        lmOracle).result =
      .error { name := "FaceDetectionError", code := .unknownError
               msg := "API has been disposed and cannot be used again" } ∧
    ((s.dispose).detectFacesWithLandmarks browserEnv input callOptions modelFaces
        lmOracle).landmarkCalls = [] ∧
    (s.dispose).updateOptions o =
      .error { name := "FaceDetectionError", code := .resourceDisposed
               msg := "API has been disposed and cannot be used" } := by
  have hd : (s.dispose).isDisposed = true := by
    unfold FaceAPIState.dispose
    split
    · assumption
    · rfl
  have hidem : (s.dispose).dispose = s.dispose := dispose_of_disposed hd
  refine ⟨hd, hidem, by rw [hidem], by rw [hidem], ?_, ?_, ?_, ?_, ?_⟩
  · unfold FaceAPIState.detectFaces
    rw [hd]
    rfl
  · unfold FaceAPIState.detectFaces
    rw [hd]
    rfl
  · unfold FaceAPIState.detectFacesWithLandmarks
    rw [hd]
    rfl
  · unfold FaceAPIState.detectFacesWithLandmarks
    rw [hd]
    rfl
  · unfold FaceAPIState.updateOptions
    rw [hd]
    rfl

/-- Witness for detectWithLandmarks_never_adds_faces. -/
theorem detectWithLandmarks_never_adds_faces_witness :
    ((FaceAPIState.detectFacesWithLandmarks (FaceAPIState.create none) false
        ⟨640, 480, .nodeCanvas⟩ none [⟨⟨1, ⟨0, 0, 10, 10⟩⟩, none⟩]
        (fun _ => [⟨[⟨1, 2, 3⟩]⟩])).result =
      .ok [⟨⟨1, ⟨0, 0, 10, 10⟩⟩, none, ⟨[⟨1, 2, 3⟩]⟩⟩]) ∧
    ([(⟨⟨1, ⟨0, 0, 10, 10⟩⟩, none, ⟨[⟨1, 2, 3⟩]⟩⟩ : FaceWithLandmarks)]).length ≤
      ([(⟨⟨1, ⟨0, 0, 10, 10⟩⟩, none⟩ : PossiblyTrackedFace)]).length :=
  ⟨by decide,
    detectWithLandmarks_never_adds_faces (FaceAPIState.create none) false
      ⟨640, 480, .nodeCanvas⟩ none [⟨⟨1, ⟨0, 0, 10, 10⟩⟩, none⟩]
      (fun _ => [⟨[⟨1, 2, 3⟩]⟩]) [⟨⟨1, ⟨0, 0, 10, 10⟩⟩, none, ⟨[⟨1, 2, 3⟩]⟩⟩] (by decide)⟩

end FastFace
